import Mathlib

/-!
A shallow embedding of the environment layer of an LMDB wrapper
(src/src/environment.rs) together with proofs about it.

The layer wraps an external C storage engine.  Machine integers are
modelled as Nat (flag words, sizes) and Int (C return codes, where 0 is
success and any other value is the failure code of the engine call).
Fallible operations return Except Int.  Code of the repository that is
not under src/ (the transaction, database, error and ffi modules) and
the engine itself are modelled from the spec; each such definition says
so in its doc comment.
-/

namespace Lmdb

/-- LMDB return code: requested item was not found. -/
def MDB_NOTFOUND : Int := -30798

/-- LMDB return code: too many named databases are open. -/
def MDB_DBS_FULL : Int := -30791

/-- POSIX return code: permission denied, reported by the engine when a
write transaction is requested on a read-only environment. -/
def EACCES : Int := 13

/-- Environment flag bit: open the environment read-only. -/
def MDB_RDONLY : Nat := 0x20000

/-- Options for opening or creating an environment
(struct EnvironmentBuilder, environment.rs lines 139-144): a flags
bitset and three optional numeric settings. -/
structure EnvironmentBuilder where
  flags : Nat
  max_readers : Option Nat
  max_dbs : Option Nat
  map_size : Option Nat
  deriving DecidableEq, Repr

/-- Environment::new (environment.rs lines 22-29): the builder with
empty flags and no optional setting configured. -/
def Environment.new : EnvironmentBuilder :=
  { flags := 0, max_readers := none, max_dbs := none, map_size := none }

/-- EnvironmentBuilder::set_flags (environment.rs lines 175-178). -/
def EnvironmentBuilder.set_flags (self : EnvironmentBuilder) (flags : Nat) :
    EnvironmentBuilder :=
  { self with flags := flags }

/-- EnvironmentBuilder::set_max_readers (environment.rs lines 187-190). -/
def EnvironmentBuilder.set_max_readers (self : EnvironmentBuilder)
    (max_readers : Nat) : EnvironmentBuilder :=
  { self with max_readers := some max_readers }

/-- EnvironmentBuilder::set_max_dbs (environment.rs lines 201-204); the
source names its parameter max_readers but stores it in max_dbs. -/
def EnvironmentBuilder.set_max_dbs (self : EnvironmentBuilder)
    (max_readers : Nat) : EnvironmentBuilder :=
  { self with max_dbs := some max_readers }

/-- EnvironmentBuilder::set_map_size (environment.rs lines 216-219). -/
def EnvironmentBuilder.set_map_size (self : EnvironmentBuilder)
    (map_size : Nat) : EnvironmentBuilder :=
  { self with map_size := some map_size }

/-! ### Engine-handle accounting model of EnvironmentBuilder::open

For the resource-cleanup claim the engine calls made by open are
adversarial: each call may return any code.  The model records every
mdb_env_create and mdb_env_close call in a trace, so that leak freedom
is a counted property of the trace, not something written into the
definition. -/

/-- One engine-handle lifecycle event during EnvironmentBuilder::open. -/
inductive BuildEvent where
  | envCreate
  | envClose
  deriving DecidableEq, Repr

/-- The return codes the engine produces for the five engine calls that
EnvironmentBuilder::open can make, in source order. -/
structure OpenBehavior where
  createRc : Int
  maxReadersRc : Int
  maxDbsRc : Int
  mapSizeRc : Int
  openRc : Int
  deriving DecidableEq, Repr

/-- EnvironmentBuilder::open (environment.rs lines 149-173).
mdb_env_create is wrapped in lmdb_try (fail without cleanup: the handle
was never created); each later call is wrapped in lmdb_try_with_cleanup,
whose cleanup argument is mdb_env_close(env).  The three setter calls
happen only when the corresponding builder field is set.  The result is
the typed outcome paired with the trace of handle events. -/
def EnvironmentBuilder.openEnv (self : EnvironmentBuilder)
    (beh : OpenBehavior) : Except Int Unit × List BuildEvent :=
  if beh.createRc ≠ 0 then
    (Except.error beh.createRc, [])
  else if self.max_readers.isSome ∧ beh.maxReadersRc ≠ 0 then
    (Except.error beh.maxReadersRc, [BuildEvent.envCreate, BuildEvent.envClose])
  else if self.max_dbs.isSome ∧ beh.maxDbsRc ≠ 0 then
    (Except.error beh.maxDbsRc, [BuildEvent.envCreate, BuildEvent.envClose])
  else if self.map_size.isSome ∧ beh.mapSizeRc ≠ 0 then
    (Except.error beh.mapSizeRc, [BuildEvent.envCreate, BuildEvent.envClose])
  else if beh.openRc ≠ 0 then
    (Except.error beh.openRc, [BuildEvent.envCreate, BuildEvent.envClose])
  else
    (Except.ok (), [BuildEvent.envCreate])

/-- Restatement of the failure clause of the spec, used to compare the
embedded open against the specified behavior: the error surfaced is the
code of the first failing step, in the order the steps run. -/
def specOpenFirstFailure (self : EnvironmentBuilder)
    (beh : OpenBehavior) : Option Int :=
  if beh.createRc ≠ 0 then some beh.createRc
  else if self.max_readers.isSome ∧ beh.maxReadersRc ≠ 0 then
    some beh.maxReadersRc
  else if self.max_dbs.isSome ∧ beh.maxDbsRc ≠ 0 then some beh.maxDbsRc
  else if self.map_size.isSome ∧ beh.mapSizeRc ≠ 0 then some beh.mapSizeRc
  else if beh.openRc ≠ 0 then some beh.openRc
  else none

/-! ### Event-trace model of Environment::open_db and Environment::create_db

Environment (environment.rs lines 14-17) owns the engine handle and a
dbi_open_mutex guarding database-handle operations.  Each operation is
embedded as a function that returns its typed outcome paired with the
ordered trace of guard and engine events it performed.  The drop order
of Rust locals on each early return (the try macro paths) dictates the
tail of each trace: locals drop in reverse declaration order, so a live
transaction aborts before the mutex guard releases. -/

/-- One guard or engine event during open_db or create_db. -/
inductive Event where
  | lockAcquire
  | lockRelease
  | txnBeginRo
  | txnBeginRw
  | dbOpen (name : Option String)
  | dbCreate (name : Option String) (flags : Nat)
  | txnCommit
  | txnAbort
  deriving DecidableEq, Repr

/-- The part of the Environment state the trace model needs: whether the
environment was opened with MDB_RDONLY. -/
structure TEnv where
  readOnly : Bool
  deriving DecidableEq, Repr

/-- The return codes the engine produces for the three engine calls a
single open_db or create_db call makes: transaction begin, database
open or create, transaction commit. -/
structure CallBehavior where
  beginRc : Int
  dbRc : Int
  commitRc : Int
  deriving DecidableEq, Repr

/-- The behavior in which every engine call succeeds. -/
def CallBehavior.allOk : CallBehavior :=
  { beginRc := 0, dbRc := 0, commitRc := 0 }

/-- Modelled from the spec: RwTransaction::new (transaction.rs, not
under src/) asks the engine to begin a read-write transaction, which
fails with EACCES on an environment opened read-only; otherwise the
outcome is the engine code for the begin call. -/
def rwBeginRc (env : TEnv) (beh : CallBehavior) : Int :=
  if env.readOnly then EACCES else beh.beginRc

/-- Environment::open_db (environment.rs lines 48-55): lock
dbi_open_mutex, begin a read-only transaction, Database::open inside it,
commit, drop the guard, return the handle.  Each try-failure returns
early; the guard (and, while it is live, the transaction) is dropped on
every such path. -/
def TEnv.open_db (_env : TEnv) (beh : CallBehavior) (name : Option String) :
    Except Int Unit × List Event :=
  if beh.beginRc ≠ 0 then
    (Except.error beh.beginRc,
      [Event.lockAcquire, Event.txnBeginRo, Event.lockRelease])
  else if beh.dbRc ≠ 0 then
    (Except.error beh.dbRc,
      [Event.lockAcquire, Event.txnBeginRo, Event.dbOpen name,
        Event.txnAbort, Event.lockRelease])
  else if beh.commitRc ≠ 0 then
    (Except.error beh.commitRc,
      [Event.lockAcquire, Event.txnBeginRo, Event.dbOpen name,
        Event.txnCommit, Event.lockRelease])
  else
    (Except.ok (),
      [Event.lockAcquire, Event.txnBeginRo, Event.dbOpen name,
        Event.txnCommit, Event.lockRelease])

/-- Environment::create_db (environment.rs lines 68-78): lock
dbi_open_mutex, begin a read-write transaction, Database::create inside
it, commit, drop the guard, return the handle.  Identical shape to
open_db except for the write transaction and the create call. -/
def TEnv.create_db (env : TEnv) (beh : CallBehavior) (name : Option String)
    (flags : Nat) : Except Int Unit × List Event :=
  if rwBeginRc env beh ≠ 0 then
    (Except.error (rwBeginRc env beh),
      [Event.lockAcquire, Event.txnBeginRw, Event.lockRelease])
  else if beh.dbRc ≠ 0 then
    (Except.error beh.dbRc,
      [Event.lockAcquire, Event.txnBeginRw, Event.dbCreate name flags,
        Event.txnAbort, Event.lockRelease])
  else if beh.commitRc ≠ 0 then
    (Except.error beh.commitRc,
      [Event.lockAcquire, Event.txnBeginRw, Event.dbCreate name flags,
        Event.txnCommit, Event.lockRelease])
  else
    (Except.ok (),
      [Event.lockAcquire, Event.txnBeginRw, Event.dbCreate name flags,
        Event.txnCommit, Event.lockRelease])

/-! ### Deterministic engine semantics

For the claims that state what succeeds and what fails (rather than how
failures are cleaned up), the engine collaborator is modelled from the
spec as a deterministic state: a set of created named databases with
their flags, a named-database limit, and a read-only bit. -/

/-- The engine-visible state of one opened environment: the read-only
bit it was opened with, the configured maximum number of named
databases, and the created named databases with their flag words. -/
structure EngineEnv where
  readOnly : Bool
  maxDbs : Nat
  dbs : List (String × Nat)
  deriving DecidableEq, Repr

/-- Modelled from the spec: the engine transaction-begin call
(transaction.rs and the engine are not under src/).  Beginning a
read-only transaction on a valid environment succeeds; beginning a
read-write transaction on an environment opened read-only fails with
EACCES and otherwise succeeds. -/
def mdb_txn_begin (env : EngineEnv) (write : Bool) : Except Int Unit :=
  if write ∧ env.readOnly then Except.error EACCES else Except.ok ()

/-- Environment::begin_read_txn (environment.rs lines 90-92), which
delegates to RoTransaction::new. -/
def EngineEnv.begin_read_txn (env : EngineEnv) : Except Int Unit :=
  mdb_txn_begin env false

/-- Environment::begin_write_txn (environment.rs lines 96-98), which
delegates to RwTransaction::new. -/
def EngineEnv.begin_write_txn (env : EngineEnv) : Except Int Unit :=
  mdb_txn_begin env true

/-- Modelled from the spec: Database::open (database.rs, not under
src/).  The unnamed request resolves the default database; a named
request resolves the handle of an already-created database and fails
with MDB_NOTFOUND when the name does not exist.  Handles are small
integers: 1 for the default database, 2 plus the creation index for
named ones. -/
def Database.openDb (env : EngineEnv) (name : Option String) :
    Except Int Nat :=
  match name with
  | none => Except.ok 1
  | some n =>
    match env.dbs.findIdx? (fun p => p.1 = n) with
    | some i => Except.ok (2 + i)
    | none => Except.error MDB_NOTFOUND

/-- Modelled from the spec: Database::create (database.rs, not under
src/).  The unnamed request resolves the default database; a named
request creates the database when absent (failing with MDB_DBS_FULL
when the named-database limit is reached) and, when present, adds the
given flags to the stored flag word. -/
def Database.create (env : EngineEnv) (name : Option String) (flags : Nat) :
    Except Int (Nat × EngineEnv) :=
  match name with
  | none => Except.ok (1, env)
  | some n =>
    match env.dbs.findIdx? (fun p => p.1 = n) with
    | some i =>
      Except.ok (2 + i,
        { env with
          dbs := env.dbs.map
            (fun p => if p.1 = n then (p.1, p.2 ||| flags) else p) })
    | none =>
      if env.dbs.length < env.maxDbs then
        Except.ok (2 + env.dbs.length, { env with dbs := env.dbs ++ [(n, flags)] })
      else
        Except.error MDB_DBS_FULL

/-- Modelled from the spec: committing the handle-resolution transaction
of open_db or create_db on a valid environment succeeds. -/
def mdb_txn_commit : Except Int Unit := Except.ok ()

/-- The flag word stored for the named database n, if n was created. -/
def dbFlagsOf (l : List (String × Nat)) (n : String) : Option Nat :=
  match l with
  | [] => none
  | (k, v) :: t => if k = n then some v else dbFlagsOf t n

/-- Environment::open_db (environment.rs lines 48-55) under the
deterministic engine semantics: begin a read-only transaction, resolve
the handle with Database::open, commit, return the handle; each failing
step returns its error. -/
def EngineEnv.open_db (env : EngineEnv) (name : Option String) :
    Except Int Nat :=
  match env.begin_read_txn with
  | Except.error e => Except.error e
  | Except.ok _ =>
    match Database.openDb env name with
    | Except.error e => Except.error e
    | Except.ok db =>
      match mdb_txn_commit with
      | Except.error e => Except.error e
      | Except.ok _ => Except.ok db

/-- Environment::create_db (environment.rs lines 68-78) under the
deterministic engine semantics: begin a read-write transaction, create
or widen the database with Database::create, commit, return the handle
and the updated engine state. -/
def EngineEnv.create_db (env : EngineEnv) (name : Option String)
    (flags : Nat) : Except Int (Nat × EngineEnv) :=
  match env.begin_write_txn with
  | Except.error e => Except.error e
  | Except.ok _ =>
    match Database.create env name flags with
    | Except.error e => Except.error e
    | Except.ok (db, env1) =>
      match mdb_txn_commit with
      | Except.error e => Except.error e
      | Except.ok _ => Except.ok (db, env1)

/-! ### Filesystem model of opening an environment at a path -/

/-- The paths (abstracted to numbers) at which an environment with
backing storage exists. -/
structure FS where
  existing : List Nat
  deriving DecidableEq, Repr

/-- Modelled from the spec: mdb_env_open (the engine call made by
EnvironmentBuilder::open after configuration).  With MDB_RDONLY the
call fails on a path with no existing environment and succeeds on an
existing one; without MDB_RDONLY it succeeds, creating the backing
storage on demand. -/
def mdb_env_open (fs : FS) (path : Nat) (flags : Nat) : Except Int FS :=
  if flags &&& MDB_RDONLY ≠ 0 then
    if path ∈ fs.existing then Except.ok fs else Except.error 2
  else
    if path ∈ fs.existing then Except.ok fs
    else Except.ok { existing := path :: fs.existing }

/-- EnvironmentBuilder::open (environment.rs lines 149-173) under the
deterministic engine semantics: handle creation and the optional
configuration calls succeed on a valid request, then mdb_env_open runs
against the path with the accumulated flags; its error, if any, is the
result. -/
def EnvironmentBuilder.openAt (self : EnvironmentBuilder) (fs : FS)
    (path : Nat) : Except Int FS :=
  mdb_env_open fs path self.flags

/-! ### get_db_flags and the panic path -/

/-- The bits of the DatabaseFlags bitflags type (ffi, not under src/),
modelled from the engine database-flag constants: REVERSEKEY 0x02,
DUPSORT 0x04, INTEGERKEY 0x08, DUPFIXED 0x10, INTEGERDUP 0x20,
REVERSEDUP 0x40, CREATE 0x40000. -/
def allDatabaseFlags : Nat := 0x4007e

/-- DatabaseFlags::from_bits (the bitflags constructor, not under
src/): some for a word built only from known bits, none otherwise. -/
def DatabaseFlags.from_bits (bits : Nat) : Option Nat :=
  if bits &&& allDatabaseFlags = bits then some bits else none

/-- The outcome of a call that can return, fail with an engine code, or
panic the calling thread. -/
inductive FlagsOutcome where
  | ok (flags : Nat)
  | err (code : Int)
  | panicked
  deriving DecidableEq, Repr

/-- Environment::get_db_flags (environment.rs lines 80-87): begin a
read-only transaction, ask the engine for the flag word of the handle
(beginRc and flagsRc are the codes of those two calls, reported the
word the engine writes through its out-parameter), then
DatabaseFlags::from_bits(flags).unwrap() — unwrap of none panics. -/
def Environment.get_db_flags (beginRc flagsRc : Int) (reported : Nat) :
    FlagsOutcome :=
  if beginRc ≠ 0 then FlagsOutcome.err beginRc
  else if flagsRc ≠ 0 then FlagsOutcome.err flagsRc
  else
    match DatabaseFlags.from_bits reported with
    | some f => FlagsOutcome.ok f
    | none => FlagsOutcome.panicked

/-! ### Write-lock transition system

Modelled from the spec: RwTransaction::new and the engine write lock
are not under src/.  The environment-wide write lock is embedded as a
transition system over the counts of Active transactions; a blocked
begin_write_txn call is a transition that is not enabled, so it takes
its step (returns) only once no read-write transaction is Active. -/

/-- The transaction-lifecycle state of one environment: how many
read-write and how many read-only transactions are Active. -/
structure TxnState where
  writers : Nat
  readers : Nat
  deriving DecidableEq, Repr

/-- The transaction-lifecycle transitions.  beginWrite is enabled only
when no writer is Active (a begin_write_txn call blocked on the write
lock has not yet taken this step); commitWrite and abortWrite terminate
the Active writer; read-only transactions begin and end freely. -/
inductive TxnStep : TxnState → TxnState → Prop where
  | beginWrite (s : TxnState) (h : s.writers = 0) :
      TxnStep s { writers := 1, readers := s.readers }
  | commitWrite (s : TxnState) (h : s.writers = 1) :
      TxnStep s { writers := 0, readers := s.readers }
  | abortWrite (s : TxnState) (h : s.writers = 1) :
      TxnStep s { writers := 0, readers := s.readers }
  | beginRead (s : TxnState) :
      TxnStep s { writers := s.writers, readers := s.readers + 1 }
  | endRead (s : TxnState) :
      TxnStep s { writers := s.writers, readers := s.readers - 1 }

/-- The state of an environment right after opening: no transaction is
Active. -/
def TxnState.init : TxnState := { writers := 0, readers := 0 }

/-- The states an environment can reach from the initial state through
the transaction-lifecycle transitions. -/
inductive TxnReachable : TxnState → Prop where
  | init : TxnReachable TxnState.init
  | step (s t : TxnState) (hs : TxnReachable s) (h : TxnStep s t) :
      TxnReachable t

end Lmdb

namespace Lmdb

/-- C9: Every builder setter mutates exactly its own field, leaves the
other three fields unchanged, accepts every value (no validation), and
returns the builder. -/
theorem builder_setters_frame (b : EnvironmentBuilder)
    (f n m sz : Nat) :
    ((b.set_flags f).flags = f ∧
      (b.set_flags f).max_readers = b.max_readers ∧
      (b.set_flags f).max_dbs = b.max_dbs ∧
      (b.set_flags f).map_size = b.map_size) ∧
    ((b.set_max_readers n).max_readers = some n ∧
      (b.set_max_readers n).flags = b.flags ∧
      (b.set_max_readers n).max_dbs = b.max_dbs ∧
      (b.set_max_readers n).map_size = b.map_size) ∧
    ((b.set_max_dbs m).max_dbs = some m ∧
      (b.set_max_dbs m).flags = b.flags ∧
      (b.set_max_dbs m).max_readers = b.max_readers ∧
      (b.set_max_dbs m).map_size = b.map_size) ∧
    ((b.set_map_size sz).map_size = some sz ∧
      (b.set_map_size sz).flags = b.flags ∧
      (b.set_map_size sz).max_readers = b.max_readers ∧
      (b.set_map_size sz).max_dbs = b.max_dbs) :=
  ⟨⟨rfl, rfl, rfl, rfl⟩, ⟨rfl, rfl, rfl, rfl⟩,
    ⟨rfl, rfl, rfl, rfl⟩, ⟨rfl, rfl, rfl, rfl⟩⟩

/-- C2: EnvironmentBuilder::open never leaks the engine handle: on every
outcome the number of engine handles created and not closed is one
exactly when open succeeded and zero otherwise, and the outcome is the
typed error carrying the code of the first failing engine step (ok when
no step fails). -/
theorem open_no_leak (b : EnvironmentBuilder) (beh : OpenBehavior) :
    ((b.openEnv beh).2.count BuildEvent.envCreate =
      (b.openEnv beh).2.count BuildEvent.envClose +
        (if (b.openEnv beh).1.isOk then 1 else 0)) ∧
    (b.openEnv beh).1 =
      (match specOpenFirstFailure b beh with
        | some e => Except.error e
        | none => Except.ok ()) := by
  unfold EnvironmentBuilder.openEnv specOpenFirstFailure
  by_cases h1 : beh.createRc ≠ 0 <;>
    by_cases h2 : b.max_readers.isSome ∧ beh.maxReadersRc ≠ 0 <;>
      by_cases h3 : b.max_dbs.isSome ∧ beh.maxDbsRc ≠ 0 <;>
        by_cases h4 : b.map_size.isSome ∧ beh.mapSizeRc ≠ 0 <;>
          by_cases h5 : beh.openRc ≠ 0 <;>
            simp [h1, h2, h3, h4, h5, Except.isOk, Except.toBool]

/-- C4: open_db performs exactly the sequence lock-acquire, begin
read-only transaction, Database::open of the requested name, commit,
lock-release, and returns success, when every engine call succeeds;
under every engine behavior it never emits a create event, and its
whole trace is bracketed by the guard acquire as first event and the
guard release as last event. -/
theorem open_db_sequence (env : TEnv) (beh : CallBehavior)
    (name : Option String) :
    ((env.open_db CallBehavior.allOk name).2 =
      [Event.lockAcquire, Event.txnBeginRo, Event.dbOpen name,
        Event.txnCommit, Event.lockRelease] ∧
      (env.open_db CallBehavior.allOk name).1 = Except.ok ()) ∧
    (∀ n2 f2, Event.dbCreate n2 f2 ∉ (env.open_db beh name).2) ∧
    ((env.open_db beh name).2.head? = some Event.lockAcquire ∧
      (env.open_db beh name).2.getLast? = some Event.lockRelease) := by
  refine ⟨⟨?_, ?_⟩, ?_, ?_, ?_⟩
  · simp [TEnv.open_db, CallBehavior.allOk]
  · simp [TEnv.open_db, CallBehavior.allOk]
  · intro n2 f2
    by_cases h1 : beh.beginRc = 0 <;> by_cases h2 : beh.dbRc = 0 <;>
      by_cases h3 : beh.commitRc = 0 <;> simp [TEnv.open_db, h1, h2, h3]
  · by_cases h1 : beh.beginRc = 0 <;> by_cases h2 : beh.dbRc = 0 <;>
      by_cases h3 : beh.commitRc = 0 <;> simp [TEnv.open_db, h1, h2, h3]
  · by_cases h1 : beh.beginRc = 0 <;> by_cases h2 : beh.dbRc = 0 <;>
      by_cases h3 : beh.commitRc = 0 <;>
        simp [TEnv.open_db, h1, h2, h3, List.getLast?]

/-- C10: Every exit path of open_db and of create_db, the early error
returns included, acquires the guard exactly once and releases it
exactly once, the release being the last event, so no failing call
leaves the guard held. -/
theorem mutex_released_on_every_path (env : TEnv) (beh : CallBehavior)
    (name : Option String) (flags : Nat) :
    ((env.open_db beh name).2.count Event.lockAcquire = 1 ∧
      (env.open_db beh name).2.count Event.lockRelease = 1 ∧
      (env.open_db beh name).2.getLast? = some Event.lockRelease) ∧
    ((env.create_db beh name flags).2.count Event.lockAcquire = 1 ∧
      (env.create_db beh name flags).2.count Event.lockRelease = 1 ∧
      (env.create_db beh name flags).2.getLast? = some Event.lockRelease) := by
  constructor
  · by_cases h1 : beh.beginRc = 0 <;> by_cases h2 : beh.dbRc = 0 <;>
      by_cases h3 : beh.commitRc = 0 <;>
        simp [TEnv.open_db, h1, h2, h3, List.count_cons, List.count_nil,
          beq_iff_eq, List.getLast?]
  · by_cases h1 : rwBeginRc env beh = 0 <;> by_cases h2 : beh.dbRc = 0 <;>
      by_cases h3 : beh.commitRc = 0 <;>
        simp [TEnv.create_db, h1, h2, h3, List.count_cons, List.count_nil,
          beq_iff_eq, List.getLast?]

/-- Shared helper: adding flag bits to the entry of key n through the
entry-updating map changes the stored flag word of n from fOld to
fOld ||| f. -/
theorem dbFlagsOf_map_or (l : List (String × Nat)) (n : String)
    (f fOld : Nat) (h : dbFlagsOf l n = some fOld) :
    dbFlagsOf (l.map (fun p => if p.1 = n then (p.1, p.2 ||| f) else p)) n =
      some (fOld ||| f) := by
  induction l with
  | nil => simp [dbFlagsOf] at h
  | cons a t ih =>
    obtain ⟨k, v⟩ := a
    by_cases hk : k = n
    · subst hk
      simp [dbFlagsOf] at h
      rw [List.map_cons, if_pos (show ((k, v) : String × Nat).1 = k from rfl)]
      simp [dbFlagsOf, h]
    · simp [dbFlagsOf, hk] at h
      rw [List.map_cons, if_neg (show ¬((k, v) : String × Nat).1 = n from hk)]
      simp [dbFlagsOf, hk, ih h]

/-- C5: create_db under an all-success engine behavior on a writable
environment performs exactly lock-acquire, begin read-write
transaction, Database::create with the requested name and flags,
commit, lock-release; on a read-only environment it always fails (in
the trace model and in the deterministic semantics); in the
deterministic semantics it creates the database when the name is
absent and room remains, and adds the given flags to the stored flag
word when the name is present. -/
theorem create_db_spec (env : TEnv) (eenv : EngineEnv) (beh : CallBehavior)
    (name : Option String) (flags f fOld : Nat) (n : String) (i : Nat) :
    (env.readOnly = false →
      (env.create_db CallBehavior.allOk name flags).2 =
        [Event.lockAcquire, Event.txnBeginRw, Event.dbCreate name flags,
          Event.txnCommit, Event.lockRelease] ∧
      (env.create_db CallBehavior.allOk name flags).1 = Except.ok ()) ∧
    (env.readOnly = true →
      (env.create_db beh name flags).1.isOk = false) ∧
    (eenv.readOnly = true → (eenv.create_db name flags).isOk = false) ∧
    (eenv.readOnly = false →
      eenv.dbs.findIdx? (fun p => p.1 = n) = none →
      eenv.dbs.length < eenv.maxDbs →
      eenv.create_db (some n) f =
        Except.ok (2 + eenv.dbs.length,
          { eenv with dbs := eenv.dbs ++ [(n, f)] })) ∧
    (eenv.readOnly = false →
      eenv.dbs.findIdx? (fun p => p.1 = n) = some i →
      dbFlagsOf eenv.dbs n = some fOld →
      ∃ env1, eenv.create_db (some n) f = Except.ok (2 + i, env1) ∧
        dbFlagsOf env1.dbs n = some (fOld ||| f)) := by
  refine ⟨?_, ?_, ?_, ?_, ?_⟩
  · intro h
    simp [TEnv.create_db, rwBeginRc, h, CallBehavior.allOk]
  · intro h
    simp [TEnv.create_db, rwBeginRc, h, EACCES, Except.isOk, Except.toBool]
  · intro h
    simp [EngineEnv.create_db, EngineEnv.begin_write_txn, mdb_txn_begin, h,
      Except.isOk, Except.toBool]
  · intro h habs hroom
    simp [EngineEnv.create_db, EngineEnv.begin_write_txn, mdb_txn_begin, h,
      Database.create, habs, hroom, mdb_txn_commit]
  · intro h hidx hold
    exact ⟨{ eenv with
        dbs := eenv.dbs.map
          (fun p => if p.1 = n then (p.1, p.2 ||| f) else p) },
      by
        simp [EngineEnv.create_db, EngineEnv.begin_write_txn, mdb_txn_begin,
          h, Database.create, hidx, mdb_txn_commit],
      dbFlagsOf_map_or eenv.dbs n f fOld hold⟩

/-- C5 witness: the conjuncts of create_db_spec evaluated on concrete
environments: a writable trace environment, a read-only trace and
engine environment, an engine environment without the database x, and
one where x exists with flags 4. -/
theorem create_db_spec_witness :
    (((⟨false⟩ : TEnv).create_db CallBehavior.allOk (some "x") 2).2 =
      [Event.lockAcquire, Event.txnBeginRw, Event.dbCreate (some "x") 2,
        Event.txnCommit, Event.lockRelease] ∧
      ((⟨false⟩ : TEnv).create_db CallBehavior.allOk (some "x") 2).1 =
        Except.ok ()) ∧
    ((⟨true⟩ : TEnv).create_db CallBehavior.allOk (some "x") 2).1.isOk =
      false ∧
    ((⟨true, 10, []⟩ : EngineEnv).create_db (some "x") 2).isOk = false ∧
    ((⟨false, 10, []⟩ : EngineEnv).create_db (some "x") 2 =
      Except.ok (2 + ([] : List (String × Nat)).length,
        { (⟨false, 10, []⟩ : EngineEnv) with
          dbs := ([] : List (String × Nat)) ++ [("x", 2)] })) ∧
    (∃ env1, (⟨false, 10, [("x", 4)]⟩ : EngineEnv).create_db (some "x") 2 =
      Except.ok (2 + 0, env1) ∧ dbFlagsOf env1.dbs "x" = some (4 ||| 2)) := by
  have h1 := create_db_spec ⟨false⟩ ⟨false, 10, []⟩ CallBehavior.allOk
    (some "x") 2 2 4 "x" 0
  have h2 := create_db_spec ⟨true⟩ ⟨true, 10, []⟩ CallBehavior.allOk
    (some "x") 2 2 4 "x" 0
  have h3 := create_db_spec ⟨false⟩ ⟨false, 10, [("x", 4)]⟩ CallBehavior.allOk
    (some "x") 2 2 4 "x" 0
  exact ⟨h1.1 rfl, h2.2.1 rfl, h2.2.2.1 rfl,
    h1.2.2.2.1 rfl (by decide) (by decide),
    h3.2.2.2.2 rfl (by decide) (by decide)⟩

/-- C6: On every environment opened with the read-only flag,
begin_write_txn always returns an error and begin_read_txn always
succeeds. -/
theorem readonly_env_txns (env : EngineEnv) (h : env.readOnly = true) :
    env.begin_write_txn.isOk = false ∧ env.begin_read_txn.isOk = true := by
  simp [EngineEnv.begin_write_txn, EngineEnv.begin_read_txn, mdb_txn_begin,
    h, Except.isOk, Except.toBool]

/-- C6 witness: a concrete read-only environment refuses a write
transaction and grants a read transaction. -/
theorem readonly_env_txns_witness :
    ((⟨true, 0, []⟩ : EngineEnv).begin_write_txn).isOk = false ∧
      ((⟨true, 0, []⟩ : EngineEnv).begin_read_txn).isOk = true :=
  readonly_env_txns ⟨true, 0, []⟩ rfl

/-- C7: At a path with no existing environment, opening with the
read-only flag fails; opening without it succeeds and creates the
backing storage; afterwards reopening the same path read-only
succeeds. -/
theorem open_nonexistent_path (fs : FS) (path : Nat)
    (bro brw : EnvironmentBuilder) (hpath : path ∉ fs.existing)
    (hro : bro.flags &&& MDB_RDONLY ≠ 0)
    (hrw : brw.flags &&& MDB_RDONLY = 0) :
    (bro.openAt fs path).isOk = false ∧
    ∃ fs1, brw.openAt fs path = Except.ok fs1 ∧ path ∈ fs1.existing ∧
      (bro.openAt fs1 path).isOk = true := by
  refine ⟨?_, { existing := path :: fs.existing }, ?_, ?_, ?_⟩
  · simp [EnvironmentBuilder.openAt, mdb_env_open, hro, hpath,
      Except.isOk, Except.toBool]
  · simp [EnvironmentBuilder.openAt, mdb_env_open, hrw, hpath]
  · simp
  · simp [EnvironmentBuilder.openAt, mdb_env_open, hro,
      Except.isOk, Except.toBool]

/-- C7 witness: opening path 0 on the empty filesystem, read-only with
builder flags MDB_RDONLY and read-write with the default builder. -/
theorem open_nonexistent_path_witness :
    ((Environment.new.set_flags MDB_RDONLY).openAt ⟨[]⟩ 0).isOk = false ∧
    ∃ fs1, Environment.new.openAt ⟨[]⟩ 0 = Except.ok fs1 ∧
      0 ∈ fs1.existing ∧
      ((Environment.new.set_flags MDB_RDONLY).openAt fs1 0).isOk = true :=
  open_nonexistent_path ⟨[]⟩ 0 (Environment.new.set_flags MDB_RDONLY)
    Environment.new (by decide) (by decide) (by decide)

/-- C8: On a writable environment configured with a positive
named-database limit and no database created yet, open_db of a name
fails with MDB_NOTFOUND, and create_db of that name with empty flags
followed by open_db of it succeeds. -/
theorem open_create_open (eenv : EngineEnv) (n : String)
    (hro : eenv.readOnly = false) (hempty : eenv.dbs = [])
    (hmax : 0 < eenv.maxDbs) :
    eenv.open_db (some n) = Except.error MDB_NOTFOUND ∧
    ∃ db env1, eenv.create_db (some n) 0 = Except.ok (db, env1) ∧
      (env1.open_db (some n)).isOk = true := by
  constructor
  · simp [EngineEnv.open_db, EngineEnv.begin_read_txn, mdb_txn_begin,
      Database.openDb, hempty]
  · refine ⟨2, { eenv with dbs := [(n, 0)] }, ?_, ?_⟩
    · simp [EngineEnv.create_db, EngineEnv.begin_write_txn, mdb_txn_begin,
        hro, Database.create, hempty, hmax, mdb_txn_commit]
    · simp [EngineEnv.open_db, EngineEnv.begin_read_txn, mdb_txn_begin,
        Database.openDb, List.findIdx?, mdb_txn_commit,
        Except.isOk, Except.toBool]

/-- C8 witness: the scenario on a fresh writable environment with a
named-database limit of 10 and the name x. -/
theorem open_create_open_witness :
    (⟨false, 10, []⟩ : EngineEnv).open_db (some "x") =
      Except.error MDB_NOTFOUND ∧
    ∃ db env1, (⟨false, 10, []⟩ : EngineEnv).create_db (some "x") 0 =
      Except.ok (db, env1) ∧ (env1.open_db (some "x")).isOk = true :=
  open_create_open ⟨false, 10, []⟩ "x" rfl rfl (by decide)

/-- C1: In every state reachable through the transaction-lifecycle
transitions, at most one read-write transaction is Active, and
beginning a further read-only transaction is always possible. -/
theorem single_writer (s : TxnState) (h : TxnReachable s) :
    s.writers ≤ 1 ∧
      TxnStep s { writers := s.writers, readers := s.readers + 1 } := by
  refine ⟨?_, TxnStep.beginRead s⟩
  induction h with
  | init => decide
  | step s t hs hstep ih => cases hstep <;> simp_all

/-- C1 witness: the invariant and the read-begin transition at the
initial state. -/
theorem single_writer_witness :
    TxnState.init.writers ≤ 1 ∧
      TxnStep TxnState.init
        { writers := TxnState.init.writers,
          readers := TxnState.init.readers + 1 } :=
  single_writer TxnState.init TxnReachable.init

/-- C3 counterexample: get_db_flags has a panic path.  When both engine
calls succeed and the engine reports the flag word 0x8000 (a bit
outside DatabaseFlags, such as the engine-internal valid bit), the
unwrap of DatabaseFlags::from_bits panics instead of returning a
result. -/
theorem get_db_flags_panics_on_unknown_bit :
    Environment.get_db_flags 0 0 0x8000 = FlagsOutcome.panicked := by
  decide

/-- C3 amended: every public operation returns a typed result for
expected failure conditions except get_db_flags, which returns a result
only for flag words built from the known DatabaseFlags bits: for every
such word it returns a result and never panics. -/
theorem get_db_flags_no_panic_on_known_bits (b f : Int) (w : Nat)
    (h : w &&& allDatabaseFlags = w) :
    Environment.get_db_flags b f w ≠ FlagsOutcome.panicked := by
  by_cases hb : b = 0 <;> by_cases hf : f = 0 <;>
    simp [Environment.get_db_flags, DatabaseFlags.from_bits, hb, hf, h]

/-- C3 amended witness: with both engine calls succeeding and the
reported word DUPSORT 0x04, get_db_flags does not panic. -/
theorem get_db_flags_no_panic_witness :
    Environment.get_db_flags 0 0 4 ≠ FlagsOutcome.panicked :=
  get_db_flags_no_panic_on_known_bits 0 0 4 (by decide)

end Lmdb
